import Mathlib

/-!
Shallow embedding of the StayIn form-validation script (src/script.js).

Strings are modelled as `List Char`.  The environment clock is modelled in
UTC, so `new Date("yyyy-mm-dd")` (UTC midnight) and the local-time getters
and the local midnight used for "today" all agree; dates are compared by
their day numbers, which for midnight-normalized dates order exactly as the
millisecond timestamps compared by the source.
-/

/-- ECMAScript whitespace class `\s` (WhiteSpace plus LineTerminator code
points), the class used by the email regex and by `String.prototype.trim`. -/
def jsSpace (c : Char) : Bool :=
  c.toNat = 9 || c.toNat = 10 || c.toNat = 11 || c.toNat = 12 || c.toNat = 13 ||
  c.toNat = 32 || c.toNat = 160 || c.toNat = 5760 ||
  (8192 ≤ c.toNat && c.toNat ≤ 8202) ||
  c.toNat = 8232 || c.toNat = 8233 || c.toNat = 8239 || c.toNat = 8287 ||
  c.toNat = 12288 || c.toNat = 65279

/-- Model of `String.prototype.trim`: strip `jsSpace` characters from both ends. -/
def jsTrim (s : List Char) : List Char :=
  (((s.dropWhile jsSpace).reverse).dropWhile jsSpace).reverse

/-- Character class `[^\s@]` of the email regex: not whitespace and not `@`. -/
def emailAtom (c : Char) : Bool :=
  !(jsSpace c) && !(c = '@')

/-- Whether a list has a `.` at an interior position (neither first nor last). -/
def hasInteriorDot : List Char → Bool
  | [] => false
  | _ :: t => t.dropLast.contains '.'

/-- Matcher for the part of the regex after the `@`: `[^\s@]+\.[^\s@]+$`.
Since `.` itself lies in `[^\s@]`, this holds iff every character is in the
class and some `.` sits at an interior position. -/
def emailAfterAt (r : List Char) : Bool :=
  r.all emailAtom && hasInteriorDot r

/-- Matcher for the regex tail once at least one `[^\s@]` character has been
consumed: either an `@` followed by `[^\s@]+\.[^\s@]+$`, or one more class
character and recurse. -/
def emailLocal : List Char → Bool
  | [] => false
  | c :: t => if c = '@' then emailAfterAt t else emailAtom c && emailLocal t

/-- Executable matcher for `^[^\s@]+@[^\s@]+\.[^\s@]+$`. -/
def emailMatch : List Char → Bool
  | [] => false
  | c :: t => emailAtom c && emailLocal t

/-- Model of `validateEmail` (src/script.js:22-29): test the regex
`^[^\s@]+@[^\s@]+\.[^\s@]+$` against the lowercased input. -/
def validateEmail (s : List Char) : Bool :=
  emailMatch (s.map Char.toLower)

/-- Decimal digit class `\d` = `[0-9]`. -/
def isDigitCh (c : Char) : Bool :=
  48 ≤ c.toNat && c.toNat ≤ 57

/-- Matcher for `^\d{n}$`: exactly `n` characters, all decimal digits. -/
def phoneMatch : Nat → List Char → Bool
  | 0, [] => true
  | 0, _ :: _ => false
  | _ + 1, [] => false
  | n + 1, c :: t => isDigitCh c && phoneMatch n t

/-- Model of `validatePhone` (src/script.js:36-39): test `^\d{10}$`. -/
def validatePhone (s : List Char) : Bool :=
  phoneMatch 10 s

/-- Denotation of the regex `^[^\s@]+@[^\s@]+\.[^\s@]+$`: the string splits
as a nonempty run of class characters, an `@`, a nonempty run, a `.`, and a
final nonempty run. -/
def MatchesEmailRe (l : List Char) : Prop :=
  ∃ a b c, l = a ++ '@' :: (b ++ '.' :: c) ∧ a ≠ [] ∧ b ≠ [] ∧ c ≠ [] ∧
    (∀ x ∈ a, emailAtom x = true) ∧ (∀ x ∈ b, emailAtom x = true) ∧
    (∀ x ∈ c, emailAtom x = true)

/-- Modelled from the spec: the prose pass-characterization of
`validateEmail` in the spec (no whitespace before "@", no whitespace between
"@" and ".", and a non-empty suffix after the last "."), to be compared with
the regex-based source behavior. The string must contain "@" and ".", have
no whitespace before the first "@" nor between that "@" and the next ".",
and have a non-empty suffix after the last ".". -/
def specEmailPass (s : List Char) : Bool :=
  s.contains '@' && s.contains '.' &&
  ((s.takeWhile (fun c => !(c = '@'))).all (fun c => !jsSpace c)) &&
  ((((s.dropWhile (fun c => !(c = '@'))).drop 1).takeWhile (fun c => !(c = '.'))).all
    (fun c => !jsSpace c)) &&
  (!((s.reverse.takeWhile (fun c => !(c = '.'))) = []))

/-- Gregorian leap-year rule, as used by the JavaScript `Date` object. -/
def isLeap (y : Nat) : Bool :=
  (y % 4 = 0 && !(y % 100 = 0)) || y % 400 = 0

/-- Number of days in month `m` (1-12) of year `y`. -/
def daysInMonth (y m : Nat) : Nat :=
  if m = 2 then (if isLeap y then 29 else 28)
  else if m = 4 || m = 6 || m = 9 || m = 11 then 30 else 31

/-- A calendar date: year, month (1-12), day of month (1-based). -/
structure YMD where
  year : Nat
  month : Nat
  day : Nat
deriving DecidableEq

/-- Whether a `YMD` is an actual calendar date. -/
def validYMD (t : YMD) : Bool :=
  1 ≤ t.month && t.month ≤ 12 && 1 ≤ t.day && t.day ≤ daysInMonth t.year t.month

/-- Number of leap years strictly below `y`. -/
def leapsBefore : Nat → Nat
  | 0 => 0
  | y + 1 => leapsBefore y + (if isLeap y then 1 else 0)

/-- Number of days in year `y`. -/
def daysInYear (y : Nat) : Nat :=
  if isLeap y then 366 else 365

/-- Number of days in all years strictly below `y`. -/
def daysBeforeYear (y : Nat) : Nat :=
  365 * y + leapsBefore y

/-- Number of days of year `y` that lie in months strictly before `m`. -/
def daysBeforeMonth (y : Nat) : Nat → Nat
  | 0 => 0
  | 1 => 0
  | m + 2 => daysBeforeMonth y (m + 1) + daysInMonth y (m + 1)

/-- Day number of a date: days elapsed since 0000-01-01.  Two midnight
timestamps of the JavaScript `Date` object compare exactly as the day
numbers of their calendar dates. -/
def dayNumber (t : YMD) : Nat :=
  daysBeforeYear t.year + daysBeforeMonth t.year t.month + (t.day - 1)

/-- Model of `checkinDate.setDate(checkinDate.getDate() + 1)` on a valid
date: the next calendar day, rolling over month and year ends. -/
def nextDay (t : YMD) : YMD :=
  if t.day + 1 ≤ daysInMonth t.year t.month then ⟨t.year, t.month, t.day + 1⟩
  else if t.month + 1 ≤ 12 then ⟨t.year, t.month + 1, 1⟩
  else ⟨t.year + 1, 1, 1⟩

/-- The character `'0'`..`'9'` for a digit value (clamped at 9). -/
def digitChar : Nat → Char
  | 0 => '0'
  | 1 => '1'
  | 2 => '2'
  | 3 => '3'
  | 4 => '4'
  | 5 => '5'
  | 6 => '6'
  | 7 => '7'
  | 8 => '8'
  | _ => '9'

/-- Numeric value of a digit character. -/
def digitVal (c : Char) : Nat := c.toNat - 48

/-- Fixed-width decimal rendering of `n` using `w` digits (`n < 10 ^ w`). -/
def natDigits : Nat → Nat → List Char
  | 0, _ => []
  | w + 1, n => digitChar (n / 10 ^ w) :: natDigits w (n % 10 ^ w)

/-- The `yyyy-mm-dd` rendering of a date with zero-padded fields, the value
format of an HTML date input. -/
def fmtDate (t : YMD) : List Char :=
  natDigits 4 t.year ++ '-' :: (natDigits 2 t.month ++ '-' :: natDigits 2 t.day)

/-- Roll an out-of-range day-of-month (at most 31) into the next month, as
the `MakeDay` normalization of the JavaScript `Date` object does. -/
def normalizeYMD (y m d : Nat) : YMD :=
  if d ≤ daysInMonth y m then ⟨y, m, d⟩
  else if m + 1 ≤ 12 then ⟨y, m + 1, d - daysInMonth y m⟩
  else ⟨y + 1, 1, d - daysInMonth y m⟩

/-- Model of `new Date(s)` for a date-input value: parse the ISO date form
`yyyy-mm-dd` with month 01-12 and day 01-31 (day rolled into the next month
when past the month end, per `MakeDay`); every other string yields an
invalid date (`none`, the model of `NaN`). -/
def parseDate (s : List Char) : Option YMD :=
  match s with
  | [y1, y2, y3, y4, h1, m1, m2, h2, d1, d2] =>
    if h1 = '-' && h2 = '-' && isDigitCh y1 && isDigitCh y2 && isDigitCh y3 &&
        isDigitCh y4 && isDigitCh m1 && isDigitCh m2 && isDigitCh d1 && isDigitCh d2 then
      let y := digitVal y1 * 1000 + digitVal y2 * 100 + digitVal y3 * 10 + digitVal y4
      let m := digitVal m1 * 10 + digitVal m2
      let d := digitVal d1 * 10 + digitVal d2
      if 1 ≤ m && m ≤ 12 && 1 ≤ d && d ≤ 31 then some (normalizeYMD y m d) else none
    else none
  | _ => none

/-- Model of the JavaScript `<` comparison between a parsed check-in date and
the midnight-normalized today (`checkinDate < todayForCompare`): `NaN`
compares false. -/
def jsDateLtToday (o : Option YMD) (today : Nat) : Bool :=
  match o with
  | some t => decide (dayNumber t < today)
  | none => false

/-- Model of the JavaScript `<=` comparison between two parsed dates
(`checkoutDate <= checkinDate`): `NaN` compares false. -/
def jsDateLeDate (o1 o2 : Option YMD) : Bool :=
  match o1, o2 with
  | some a, some b => decide (dayNumber a ≤ dayNumber b)
  | _, _ => false

/-- Code-unit lexicographic `<` of JavaScript strings. -/
def strLtJs : List Char → List Char → Bool
  | [], [] => false
  | [], _ :: _ => true
  | _ :: _, [] => false
  | a :: as, b :: bs =>
    if a.toNat < b.toNat then true
    else if a = b then strLtJs as bs else false

/-- Decimal rendering of a number by JavaScript template interpolation
(no padding); the years reached here stay below 100000. -/
def jsNatStr (n : Nat) : List Char :=
  if n < 10 then natDigits 1 n
  else if n < 100 then natDigits 2 n
  else if n < 1000 then natDigits 3 n
  else if n < 10000 then natDigits 4 n
  else natDigits 5 n

/-- Model of `String(n).padStart(2, "0")`. -/
def pad2 (n : Nat) : List Char :=
  if n < 10 then '0' :: natDigits 1 n else jsNatStr n

/-- The `${yyyy}-${mm}-${dd}` template of the check-in change handler:
unpadded year, two-digit-padded month and day; an invalid date renders as
the `NaN` fields JavaScript would produce. -/
def jsDateYmdString (o : Option YMD) : List Char :=
  match o with
  | some t => jsNatStr t.year ++ '-' :: (pad2 t.month ++ '-' :: pad2 t.day)
  | none => "NaN-NaN-NaN".toList

/-- Calendar (lexicographic) order on dates. -/
def ymdLt (t1 t2 : YMD) : Prop :=
  t1.year < t2.year ∨ (t1.year = t2.year ∧
    (t1.month < t2.month ∨ (t1.month = t2.month ∧ t1.day < t2.day)))

instance : DecidablePred fun p : YMD × YMD => ymdLt p.1 p.2 := by
  intro p; unfold ymdLt; infer_instance

/-- The value strings of the booking form fields at submit time. -/
structure Booking where
  name : List Char
  email : List Char
  phone : List Char
  countryCode : List Char
  roomType : List Char
  checkin : List Char
  checkout : List Char
  guests : List Char
deriving DecidableEq

/-- The error-display elements of the booking form together with the
running `isValid` flag of the submit handler: `none` is a cleared/hidden
error element, `some msg` an element showing `msg`. -/
structure SubmitState where
  isValid : Bool
  nameErr : Option (List Char)
  emailErr : Option (List Char)
  phoneErr : Option (List Char)
  roomTypeErr : Option (List Char)
  checkinErr : Option (List Char)
  checkoutErr : Option (List Char)
  guestsErr : Option (List Char)
deriving DecidableEq

def msgNameRequired : List Char := "Full Name is required.".toList

def msgEmailRequired : List Char := "Email Address is required.".toList

def msgEmailInvalid : List Char :=
  "Please enter a valid email (e.g., name@example.com).".toList

def msgCountryCode : List Char := "Please select a country code.".toList

def msgPhoneRequired : List Char := "Phone Number is required.".toList

def msgPhoneInvalid : List Char := "Phone Number must be exactly 10 digits.".toList

def msgRoomType : List Char := "Please select a room type.".toList

def msgCheckinRequired : List Char := "Check-in date is required.".toList

def msgCheckoutRequired : List Char := "Check-out date is required.".toList

def msgCheckinPast : List Char := "Check-in date cannot be in the past.".toList

def msgCheckoutAfter : List Char :=
  "Check-out date must be after the check-in date.".toList

def msgGuests : List Char := "Please select the number of guests.".toList

def msgBookingSuccess : List Char :=
  "Booking confirmed! We will contact you shortly.".toList

/-- State after `clearAllErrors` and hiding the old success message. -/
def initState : SubmitState :=
  ⟨true, none, none, none, none, none, none, none⟩

/-- Lines 141-144: name required. -/
def stepName (b : Booking) (s : SubmitState) : SubmitState :=
  if jsTrim b.name = [] then { s with isValid := false, nameErr := some msgNameRequired }
  else s

/-- Lines 146-152: email required, else well-formed. -/
def stepEmail (b : Booking) (s : SubmitState) : SubmitState :=
  if jsTrim b.email = [] then { s with isValid := false, emailErr := some msgEmailRequired }
  else if validateEmail b.email = false then
    { s with isValid := false, emailErr := some msgEmailInvalid }
  else s

/-- Lines 154-158: country code required; the error is shown on the phone
field's error element. -/
def stepCountry (b : Booking) (s : SubmitState) : SubmitState :=
  if jsTrim b.countryCode = [] then
    { s with isValid := false, phoneErr := some msgCountryCode }
  else s

/-- Lines 160-166: phone required, else exactly 10 digits. -/
def stepPhone (b : Booking) (s : SubmitState) : SubmitState :=
  if jsTrim b.phone = [] then { s with isValid := false, phoneErr := some msgPhoneRequired }
  else if validatePhone b.phone = false then
    { s with isValid := false, phoneErr := some msgPhoneInvalid }
  else s

/-- Lines 168-171: room type required. -/
def stepRoomType (b : Booking) (s : SubmitState) : SubmitState :=
  if b.roomType = [] then { s with isValid := false, roomTypeErr := some msgRoomType }
  else s

/-- Lines 173-176: check-in required. -/
def stepCheckinRequired (b : Booking) (s : SubmitState) : SubmitState :=
  if b.checkin = [] then { s with isValid := false, checkinErr := some msgCheckinRequired }
  else s

/-- Lines 178-181: check-out required. -/
def stepCheckoutRequired (b : Booking) (s : SubmitState) : SubmitState :=
  if b.checkout = [] then
    { s with isValid := false, checkoutErr := some msgCheckoutRequired }
  else s

/-- Lines 185-202: when both dates are present, parse them and check
check-in not before today and check-out strictly after check-in;
`today` is the day number of the midnight-normalized current date. -/
def stepDates (today : Nat) (b : Booking) (s : SubmitState) : SubmitState :=
  if b.checkin ≠ [] ∧ b.checkout ≠ [] then
    let ci := parseDate b.checkin
    let co := parseDate b.checkout
    let s1 := if jsDateLtToday ci today then
        { s with isValid := false, checkinErr := some msgCheckinPast }
      else s
    if jsDateLeDate co ci then
      { s1 with isValid := false, checkoutErr := some msgCheckoutAfter }
    else s1
  else s

/-- Lines 205-208: guests required. -/
def stepGuests (b : Booking) (s : SubmitState) : SubmitState :=
  if b.guests = [] then { s with isValid := false, guestsErr := some msgGuests }
  else s

/-- The validation sequence of the booking submit handler
(src/script.js:132-208), run in source order. -/
def bookingValidate (today : Nat) (b : Booking) : SubmitState :=
  stepGuests b (stepDates today b (stepCheckoutRequired b (stepCheckinRequired b
    (stepRoomType b (stepPhone b (stepCountry b (stepEmail b (stepName b initState))))))))

/-- Empty field values, the result of `form.reset()` on this form. -/
def emptyBooking : Booking := ⟨[], [], [], [], [], [], [], []⟩

/-- Observable outcome of one booking submit: the error elements, the
success banner visibility, the field values, and the pending auto-hide
timer delay (ms) when one was scheduled. -/
structure BookingOutcome where
  state : SubmitState
  successVisible : Bool
  fields : Booking
  hideTimerMs : Option Nat
deriving DecidableEq

/-- Model of the booking submit handler (src/script.js:132-225): validate,
then on success show the banner, reset the form, and schedule the 5000 ms
hide timer. -/
def bookingSubmit (today : Nat) (b : Booking) : BookingOutcome :=
  let s := bookingValidate today b
  if s.isValid = true then ⟨s, true, emptyBooking, some 5000⟩
  else ⟨s, false, b, none⟩

/-- Firing the scheduled timer hides the success message
(src/script.js:221-223). -/
def fireHideTimer (o : BookingOutcome) : BookingOutcome :=
  match o.hideTimerMs with
  | some _ => { o with successVisible := false, hideTimerMs := none }
  | none => o

/-- Per-field rule: name (line 141). -/
def nameRule (v : List Char) : Option (List Char) :=
  if jsTrim v = [] then some msgNameRequired else none

/-- Per-field rule: email (lines 146-152). -/
def emailRule (v : List Char) : Option (List Char) :=
  if jsTrim v = [] then some msgEmailRequired
  else if validateEmail v = false then some msgEmailInvalid
  else none

/-- What the phone error element shows: the phone checks run after the
country-code check and overwrite its message (lines 154-166). -/
def phoneFieldRule (cc v : List Char) : Option (List Char) :=
  if jsTrim v = [] then some msgPhoneRequired
  else if validatePhone v = false then some msgPhoneInvalid
  else if jsTrim cc = [] then some msgCountryCode
  else none

/-- Per-field rule: room type (line 168). -/
def roomTypeRule (v : List Char) : Option (List Char) :=
  if v = [] then some msgRoomType else none

/-- Per-field rule: check-in (lines 173-176 and 193-196). -/
def checkinRule (today : Nat) (ci co : List Char) : Option (List Char) :=
  if ci = [] then some msgCheckinRequired
  else if co ≠ [] ∧ jsDateLtToday (parseDate ci) today = true then some msgCheckinPast
  else none

/-- Per-field rule: check-out (lines 178-181 and 198-201). -/
def checkoutRule (ci co : List Char) : Option (List Char) :=
  if co = [] then some msgCheckoutRequired
  else if ci ≠ [] ∧ jsDateLeDate (parseDate co) (parseDate ci) = true then
    some msgCheckoutAfter
  else none

/-- Per-field rule: guests (line 205). -/
def guestsRule (v : List Char) : Option (List Char) :=
  if v = [] then some msgGuests else none

/-- The value strings of the contact form fields at submit time. -/
structure Contact where
  name : List Char
  email : List Char
  subject : List Char
  message : List Char
deriving DecidableEq

/-- Error elements of the contact form plus the running `isValid` flag. -/
structure ContactState where
  isValid : Bool
  nameErr : Option (List Char)
  emailErr : Option (List Char)
  subjectErr : Option (List Char)
  messageErr : Option (List Char)
deriving DecidableEq

def msgContactNameRequired : List Char := "Your Name is required.".toList

def msgSubjectRequired : List Char := "Subject is required.".toList

def msgMessageRequired : List Char := "Message is required.".toList

def msgContactSuccess : List Char := "Thank you! Your message has been sent.".toList

/-- The validation sequence of the contact submit handler
(src/script.js:241-271), run in source order. -/
def contactValidate (c : Contact) : ContactState :=
  let s : ContactState := ⟨true, none, none, none, none⟩
  let s := if jsTrim c.name = [] then
      { s with isValid := false, nameErr := some msgContactNameRequired }
    else s
  let s := if jsTrim c.email = [] then
      { s with isValid := false, emailErr := some msgEmailRequired }
    else if validateEmail c.email = false then
      { s with isValid := false, emailErr := some msgEmailInvalid }
    else s
  let s := if jsTrim c.subject = [] then
      { s with isValid := false, subjectErr := some msgSubjectRequired }
    else s
  if jsTrim c.message = [] then
    { s with isValid := false, messageErr := some msgMessageRequired }
  else s

/-- Empty contact field values. -/
def emptyContact : Contact := ⟨[], [], [], []⟩

/-- Observable outcome of one contact submit. -/
structure ContactOutcome where
  state : ContactState
  successVisible : Bool
  fields : Contact
  hideTimerMs : Option Nat
deriving DecidableEq

/-- Model of the contact submit handler (src/script.js:241-288). -/
def contactSubmit (c : Contact) : ContactOutcome :=
  let s := contactValidate c
  if s.isValid = true then ⟨s, true, emptyContact, some 5000⟩
  else ⟨s, false, c, none⟩

/-- The checkout field and its `min` attribute, the state touched by the
check-in change handler. -/
structure CheckoutCtl where
  checkout : List Char
  checkoutMin : List Char
deriving DecidableEq

/-- Model of the check-in `change` handler (src/script.js:108-129): when
check-in is non-empty, parse it, add one day, set the checkout `min` to the
rendered `${yyyy}-${mm}-${dd}` string, and clear the checkout value when it
is lexicographically below the new minimum; when check-in is empty, clear
the checkout `min`. -/
def checkinChange (checkinVal : List Char) (st : CheckoutCtl) : CheckoutCtl :=
  if checkinVal ≠ [] then
    let minStr := jsDateYmdString ((parseDate checkinVal).map nextDay)
    let st1 : CheckoutCtl := { st with checkoutMin := minStr }
    if st1.checkout ≠ [] ∧ strLtJs st1.checkout minStr = true then
      { st1 with checkout := [] }
    else st1
  else { st with checkoutMin := [] }

/-- An element whose `textContent` and `style.display` the error helpers
write. -/
structure DomElem where
  textContent : List Char
  display : List Char
deriving DecidableEq

/-- A document fragment: the association of element ids to elements.
`getElementById` returns the first match or `none`. -/
def getById : List (List Char × DomElem) → List Char → Option DomElem
  | [], _ => none
  | (k, e) :: t, i => if k = i then some e else getById t i

/-- Replace the first element bound to an id, leaving other entries as they
are. -/
def setById : List (List Char × DomElem) → List Char → DomElem →
    List (List Char × DomElem)
  | [], _, _ => []
  | (k, e) :: t, i, e' => if k = i then (k, e') :: t else (k, e) :: setById t i e'

/-- Model of `showError` (src/script.js:46-52): look up `{inputId}-error`;
when present, set its text and show it; when absent, do nothing. -/
def showError (doc : List (List Char × DomElem)) (inputId msg : List Char) :
    List (List Char × DomElem) :=
  match getById doc (inputId ++ "-error".toList) with
  | none => doc
  | some _ =>
    setById doc (inputId ++ "-error".toList) ⟨msg, "block".toList⟩

/-- Model of `clearError` (src/script.js:58-64): look up `{inputId}-error`;
when present, blank its text and hide it; when absent, do nothing. -/
def clearError (doc : List (List Char × DomElem)) (inputId : List Char) :
    List (List Char × DomElem) :=
  match getById doc (inputId ++ "-error".toList) with
  | none => doc
  | some _ =>
    setById doc (inputId ++ "-error".toList) ⟨[], "none".toList⟩

/-- Booking input for the C5 witness: equal check-in and check-out dates. -/
def wB5 : Booking :=
  ⟨"John Doe".toList, "a@b.c".toList, "1234567890".toList, "+1".toList,
    "suite".toList, fmtDate ⟨1200, 3, 10⟩, fmtDate ⟨1200, 3, 10⟩, "2".toList⟩

/-- Booking input for the C6 witness: check-in equal to today. -/
def wB6 : Booking :=
  ⟨"John Doe".toList, "a@b.c".toList, "1234567890".toList, "+1".toList,
    "suite".toList, fmtDate ⟨1200, 3, 10⟩, fmtDate ⟨1200, 3, 11⟩, "2".toList⟩

/-- Fully valid booking input for the C8 witness. -/
def wB8 : Booking := wB6

/-- Booking input for the C10 witness: empty country code, valid phone. -/
def wB10 : Booking :=
  ⟨"John Doe".toList, "a@b.c".toList, "1234567890".toList, [],
    "suite".toList, fmtDate ⟨1200, 3, 10⟩, fmtDate ⟨1200, 3, 11⟩, "2".toList⟩

/-- Document for the C9 witness: a field element, no error element. -/
def wDoc : List (List Char × DomElem) := [("name".toList, ⟨[], []⟩)]

example : validateEmail ("john@example.com".toList) = true := by decide

example : validateEmail ("john@example".toList) = false := by decide

example : validateEmail ("a b@c.d".toList) = false := by decide

example : validateEmail ("JOHN@EXAMPLE.COM".toList) = true := by decide

example : validateEmail ("@a.b".toList) = false := by decide

example : specEmailPass ("@a.b".toList) = true := by decide

example : validatePhone ("12345".toList) = false := by decide

example : validatePhone ("1234567890".toList) = true := by decide

example : validatePhone ("12345678901".toList) = false := by decide

example : validatePhone ("123456789a".toList) = false := by decide

lemma dropLast_append_ne_nil (xs ys : List Char) (h : ys ≠ []) :
    (xs ++ ys).dropLast = xs ++ ys.dropLast := by
  induction xs with
  | nil => rfl
  | cons x xs ih =>
    cases hxs : xs ++ ys with
    | nil => exact absurd (List.append_eq_nil.mp hxs).2 h
    | cons a t =>
      rw [List.cons_append, hxs, List.dropLast_cons₂, ← hxs, ih, List.cons_append]

lemma emailAfterAt_iff (r : List Char) :
    emailAfterAt r = true ↔
      ∃ b c, r = b ++ '.' :: c ∧ b ≠ [] ∧ c ≠ [] ∧
        (∀ x ∈ b, emailAtom x = true) ∧ (∀ x ∈ c, emailAtom x = true) := by
  constructor
  · intro h
    have hall : r.all emailAtom = true := by
      unfold emailAfterAt at h; exact ((Bool.and_eq_true _ _).mp h).1
    have hdot : hasInteriorDot r = true := by
      unfold emailAfterAt at h; exact ((Bool.and_eq_true _ _).mp h).2
    cases r with
    | nil => simp [hasInteriorDot] at hdot
    | cons r0 t =>
      have hmem : '.' ∈ t.dropLast := by
        unfold hasInteriorDot at hdot; simpa using hdot
      have ht : t ≠ [] := by
        intro h0; rw [h0] at hmem; simp at hmem
      obtain ⟨u, v, huv⟩ := List.append_of_mem hmem
      have hts : t.dropLast ++ [t.getLast ht] = t := List.dropLast_append_getLast ht
      have hsplit : r0 :: t = (r0 :: u) ++ '.' :: (v ++ [t.getLast ht]) := by
        conv_lhs => rw [← hts, huv]
        simp
      refine ⟨r0 :: u, v ++ [t.getLast ht], hsplit, by simp, by simp, ?_, ?_⟩
      · intro x hx
        refine List.all_eq_true.mp hall x ?_
        rw [hsplit]
        exact List.mem_append.mpr (Or.inl hx)
      · intro x hx
        refine List.all_eq_true.mp hall x ?_
        rw [hsplit]
        exact List.mem_append.mpr (Or.inr (List.mem_cons_of_mem _ hx))
  · rintro ⟨b, c, rfl, hb, hc, hab, hac⟩
    unfold emailAfterAt
    refine (Bool.and_eq_true _ _).mpr ⟨?_, ?_⟩
    · refine List.all_eq_true.mpr ?_
      intro x hx
      rcases List.mem_append.mp hx with h1 | h2
      · exact hab x h1
      · rcases List.mem_cons.mp h2 with h3 | h3
        · rw [h3]; decide
        · exact hac x h3
    · cases b with
      | nil => exact absurd rfl hb
      | cons b0 b' =>
        rw [List.cons_append]
        show ((b' ++ '.' :: c).dropLast).contains '.' = true
        rw [dropLast_append_ne_nil b' ('.' :: c) (by simp)]
        cases c with
        | nil => exact absurd rfl hc
        | cons c0 c'' =>
          rw [List.dropLast_cons₂]
          simp

lemma emailLocal_iff (t : List Char) :
    emailLocal t = true ↔
      ∃ a r, t = a ++ '@' :: r ∧ (∀ x ∈ a, emailAtom x = true) ∧
        emailAfterAt r = true := by
  induction t with
  | nil =>
    constructor
    · intro h; simp [emailLocal] at h
    · rintro ⟨a, r, heq, -, -⟩
      exact absurd heq.symm (by simp)
  | cons c t ih =>
    by_cases hc : c = '@'
    · subst hc
      simp only [emailLocal, if_pos rfl]
      constructor
      · intro h; exact ⟨[], t, rfl, by simp, h⟩
      · rintro ⟨a, r, heq, ha, hr⟩
        cases a with
        | nil =>
          have : t = r := by simpa using heq
          rw [this]; exact hr
        | cons a0 a' =>
          have h0 : a0 = '@' := by
            have := congrArg List.head? heq
            simpa using this.symm
          have ha0 := ha a0 (by simp)
          rw [h0] at ha0
          simp [emailAtom] at ha0
    · simp only [emailLocal, if_neg hc]
      constructor
      · intro h
        obtain ⟨hatom, hloc⟩ := (Bool.and_eq_true _ _).mp h
        obtain ⟨a, r, heq, ha, hr⟩ := ih.mp hloc
        refine ⟨c :: a, r, by rw [heq, List.cons_append], ?_, hr⟩
        intro x hx
        rcases List.mem_cons.mp hx with h1 | h1
        · rw [h1]; exact hatom
        · exact ha x h1
      · rintro ⟨a, r, heq, ha, hr⟩
        cases a with
        | nil =>
          have : c = '@' := by simpa using congrArg List.head? heq
          exact absurd this hc
        | cons a0 a' =>
          have h0 : a0 = c ∧ t = a' ++ '@' :: r := by
            constructor
            · have := congrArg List.head? heq
              simpa using this.symm
            · have := congrArg List.tail heq
              simpa using this
          refine (Bool.and_eq_true _ _).mpr ⟨?_, ?_⟩
          · have := ha a0 (by simp)
            rw [h0.1] at this; exact this
          · exact ih.mpr ⟨a', r, h0.2, fun x hx => ha x (List.mem_cons_of_mem _ hx), hr⟩

lemma emailMatch_iff (l : List Char) : emailMatch l = true ↔ MatchesEmailRe l := by
  cases l with
  | nil =>
    constructor
    · intro h; simp [emailMatch] at h
    · rintro ⟨a, b, c, heq, -, -, -, -, -, -⟩
      exact absurd heq.symm (by simp)
  | cons c0 t =>
    simp only [emailMatch]
    constructor
    · intro h
      obtain ⟨hatom, hloc⟩ := (Bool.and_eq_true _ _).mp h
      obtain ⟨a, r, heq, ha, hr⟩ := (emailLocal_iff t).mp hloc
      obtain ⟨b, c, hreq, hb, hc, hab, hac⟩ := (emailAfterAt_iff r).mp hr
      refine ⟨c0 :: a, b, c, by rw [heq, hreq, List.cons_append], by simp, hb, hc, ?_, hab, hac⟩
      intro x hx
      rcases List.mem_cons.mp hx with h1 | h1
      · rw [h1]; exact hatom
      · exact ha x h1
    · rintro ⟨a, b, c, heq, hane, hb, hc, haa, hab, hac⟩
      cases a with
      | nil => exact absurd rfl hane
      | cons a0 a' =>
        have h0 : a0 = c0 ∧ t = a' ++ '@' :: (b ++ '.' :: c) := by
          constructor
          · have := congrArg List.head? heq
            simpa using this.symm
          · have := congrArg List.tail heq
            simpa using this
        refine (Bool.and_eq_true _ _).mpr ⟨?_, ?_⟩
        · have := haa a0 (by simp)
          rw [h0.1] at this; exact this
        · refine (emailLocal_iff t).mpr ⟨a', b ++ '.' :: c, h0.2, ?_, ?_⟩
          · exact fun x hx => haa x (List.mem_cons_of_mem _ hx)
          · exact (emailAfterAt_iff _).mpr ⟨b, c, rfl, hb, hc, hab, hac⟩

example : parseDate ("1200-03-10".toList) = some ⟨1200, 3, 10⟩ := by decide

example : parseDate ("1200-13-10".toList) = none := by decide

example : parseDate ("1200-02-30".toList) = some ⟨1200, 3, 1⟩ := by decide

example : parseDate ("1200-2-3".toList) = none := by decide

example : fmtDate ⟨1200, 3, 10⟩ = "1200-03-10".toList := by decide

example : nextDay ⟨1200, 2, 29⟩ = ⟨1200, 3, 1⟩ := by decide

example : nextDay ⟨1201, 12, 31⟩ = ⟨1202, 1, 1⟩ := by decide

example : strLtJs ("1200-03-10".toList) ("1200-03-11".toList) = true := by decide

example : jsDateYmdString (some ⟨1200, 3, 10⟩) = "1200-03-10".toList := by decide

lemma daysInMonth_pos (y m : Nat) : 1 ≤ daysInMonth y m := by
  unfold daysInMonth
  split
  · split <;> omega
  · split <;> omega

lemma daysInMonth_le_31 (y m : Nat) : daysInMonth y m ≤ 31 := by
  unfold daysInMonth
  split
  · split <;> omega
  · split <;> omega

lemma daysBeforeMonth_succ (y m : Nat) (hm : 1 ≤ m) :
    daysBeforeMonth y (m + 1) = daysBeforeMonth y m + daysInMonth y m := by
  match m, hm with
  | m' + 1, _ => rfl

lemma daysBeforeMonth_mono (y : Nat) {a b : Nat} (ha : 1 ≤ a) (h : a ≤ b) :
    daysBeforeMonth y a ≤ daysBeforeMonth y b := by
  induction b with
  | zero => omega
  | succ b ih =>
    rcases Nat.lt_succ_iff_lt_or_eq.mp (Nat.lt_succ_of_le h) with h1 | h1
    · have hab : a ≤ b := by omega
      refine le_trans (ih hab) ?_
      rw [daysBeforeMonth_succ y b (by omega)]
      exact Nat.le_add_right _ _
    · rw [h1]

lemma daysBeforeMonth_day_le (y m d : Nat) (hm1 : 1 ≤ m) (hm2 : m ≤ 12)
    (hd : d ≤ daysInMonth y m) :
    daysBeforeMonth y m + d ≤ daysInYear y := by
  cases hl : isLeap y <;> interval_cases m <;>
    simp [daysBeforeMonth, daysInMonth, daysInYear, hl] at * <;> omega

lemma leapsBefore_mono {a b : Nat} (h : a ≤ b) : leapsBefore a ≤ leapsBefore b := by
  induction b with
  | zero =>
    have : a = 0 := Nat.le_zero.mp h
    rw [this]
  | succ b ih =>
    rcases Nat.lt_succ_iff_lt_or_eq.mp (Nat.lt_succ_of_le h) with h1 | h1
    · refine le_trans (ih (by omega)) ?_
      show leapsBefore b ≤ leapsBefore b + _
      exact Nat.le_add_right _ _
    · rw [h1]

lemma daysBeforeYear_succ (y : Nat) :
    daysBeforeYear (y + 1) = daysBeforeYear y + daysInYear y := by
  cases hl : isLeap y <;>
    simp [daysBeforeYear, leapsBefore, daysInYear, hl] <;> ring

lemma daysBeforeYear_mono {a b : Nat} (h : a ≤ b) :
    daysBeforeYear a ≤ daysBeforeYear b :=
  Nat.add_le_add (Nat.mul_le_mul_left _ h) (leapsBefore_mono h)

lemma dayNumber_lt_of_ymdLt {t1 t2 : YMD} (h1 : validYMD t1 = true)
    (h2 : validYMD t2 = true) (h : ymdLt t1 t2) :
    dayNumber t1 < dayNumber t2 := by
  obtain ⟨y1, m1, d1⟩ := t1
  obtain ⟨y2, m2, d2⟩ := t2
  simp only [validYMD, Bool.and_eq_true, decide_eq_true_eq] at h1 h2
  obtain ⟨⟨⟨hm1a, hm1b⟩, hd1a⟩, hd1b⟩ := h1
  obtain ⟨⟨⟨hm2a, hm2b⟩, hd2a⟩, hd2b⟩ := h2
  unfold ymdLt at h
  simp only at h
  unfold dayNumber
  simp only
  rcases h with h | ⟨rfl, h⟩
  · have ha : daysBeforeMonth y1 m1 + d1 ≤ daysInYear y1 :=
      daysBeforeMonth_day_le y1 m1 d1 hm1a hm1b hd1b
    have hb : daysBeforeYear y1 + daysInYear y1 ≤ daysBeforeYear y2 := by
      rw [← daysBeforeYear_succ]
      exact daysBeforeYear_mono h
    have hc : daysBeforeMonth y2 m2 ≤ daysBeforeMonth y2 m2 + (d2 - 1) :=
      Nat.le_add_right _ _
    omega
  · rcases h with h | ⟨rfl, h⟩
    · have ha : daysBeforeMonth y1 m1 + d1 ≤ daysBeforeMonth y1 (m1 + 1) := by
        rw [daysBeforeMonth_succ y1 m1 hm1a]
        omega
      have hb : daysBeforeMonth y1 (m1 + 1) ≤ daysBeforeMonth y1 m2 :=
        daysBeforeMonth_mono y1 (by omega) (by omega)
      omega
    · omega

lemma dayNumber_lt_iff {t1 t2 : YMD} (h1 : validYMD t1 = true)
    (h2 : validYMD t2 = true) :
    dayNumber t1 < dayNumber t2 ↔ ymdLt t1 t2 := by
  constructor
  · intro h
    by_contra hn
    obtain ⟨y1, m1, d1⟩ := t1
    obtain ⟨y2, m2, d2⟩ := t2
    have htri : ymdLt ⟨y2, m2, d2⟩ ⟨y1, m1, d1⟩ ∨
        (y1 = y2 ∧ m1 = m2 ∧ d1 = d2) := by
      unfold ymdLt at hn ⊢
      simp only at hn ⊢
      omega
    rcases htri with hlt | ⟨rfl, rfl, rfl⟩
    · exact absurd h (by have := dayNumber_lt_of_ymdLt h2 h1 hlt; omega)
    · omega
  · exact dayNumber_lt_of_ymdLt h1 h2

lemma dayNumber_nextDay {t : YMD} (hv : validYMD t = true) :
    dayNumber (nextDay t) = dayNumber t + 1 := by
  obtain ⟨y, m, d⟩ := t
  simp only [validYMD, Bool.and_eq_true, decide_eq_true_eq] at hv
  obtain ⟨⟨⟨hma, hmb⟩, hda⟩, hdb⟩ := hv
  unfold nextDay
  split
  · simp only [dayNumber]
    omega
  · split
    · rename_i hdd hmm
      simp only [dayNumber]
      rw [daysBeforeMonth_succ y m hma]
      simp only at hdd hmm ⊢
      omega
    · rename_i hdd hmm
      simp only at hdd hmm
      have hm12 : m = 12 := by omega
      subst hm12
      have hdim : daysInMonth y 12 = 31 := rfl
      have hd31 : d = 31 := by omega
      subst hd31
      simp only [dayNumber]
      rw [daysBeforeYear_succ]
      cases hl : isLeap y <;>
        simp [daysBeforeMonth, daysInMonth, daysInYear, hl]

lemma nextDay_valid {t : YMD} (hv : validYMD t = true) :
    validYMD (nextDay t) = true := by
  obtain ⟨y, m, d⟩ := t
  simp only [validYMD, Bool.and_eq_true, decide_eq_true_eq] at hv
  obtain ⟨⟨⟨hma, hmb⟩, hda⟩, hdb⟩ := hv
  unfold nextDay
  dsimp only
  split
  · rename_i h
    simp only [validYMD, Bool.and_eq_true, decide_eq_true_eq]
    exact ⟨⟨⟨hma, hmb⟩, by omega⟩, h⟩
  · split
    · rename_i h h2
      simp only [validYMD, Bool.and_eq_true, decide_eq_true_eq]
      exact ⟨⟨⟨by omega, h2⟩, le_rfl⟩, daysInMonth_pos y (m + 1)⟩
    · rename_i h h2
      simp only [validYMD, Bool.and_eq_true, decide_eq_true_eq]
      exact ⟨⟨⟨by omega, by omega⟩, le_rfl⟩, daysInMonth_pos (y + 1) 1⟩

lemma digitChar_lt_iff : ∀ a, a < 10 → ∀ b, b < 10 →
    ((digitChar a).toNat < (digitChar b).toNat ↔ a < b) := by decide

lemma digitChar_eq_iff : ∀ a, a < 10 → ∀ b, b < 10 →
    (digitChar a = digitChar b ↔ a = b) := by decide

lemma isDigitCh_digitChar : ∀ a, a < 10 → isDigitCh (digitChar a) = true := by decide

lemma digitVal_digitChar : ∀ a, a < 10 → digitVal (digitChar a) = a := by decide

lemma natDigits_length (w n : Nat) : (natDigits w n).length = w := by
  induction w generalizing n with
  | zero => rfl
  | succ w ih => simp [natDigits, ih]

lemma strLt_natDigits : ∀ w a b, a < 10 ^ w → b < 10 ^ w →
    (strLtJs (natDigits w a) (natDigits w b) = true ↔ a < b) := by
  intro w
  induction w with
  | zero =>
    intro a b ha hb
    simp only [pow_zero, Nat.lt_one_iff] at ha hb
    subst ha; subst hb
    simp [natDigits, strLtJs]
  | succ w ih =>
    intro a b ha hb
    have hP : 0 < 10 ^ w := Nat.pos_pow_of_pos w (by omega)
    have hqa : a / 10 ^ w < 10 := by
      rw [Nat.div_lt_iff_lt_mul hP]
      rw [pow_succ] at ha
      omega
    have hqb : b / 10 ^ w < 10 := by
      rw [Nat.div_lt_iff_lt_mul hP]
      rw [pow_succ] at hb
      omega
    have hda := Nat.div_add_mod a (10 ^ w)
    have hdb := Nat.div_add_mod b (10 ^ w)
    have hra : a % 10 ^ w < 10 ^ w := Nat.mod_lt _ hP
    have hrb : b % 10 ^ w < 10 ^ w := Nat.mod_lt _ hP
    have key : ∀ P qa ra qb rb : Nat, 0 < P → ra < P → qa < qb →
        P * qa + ra < P * qb + rb := by
      intro P qa ra qb rb hp hr h
      calc P * qa + ra < P * qa + P := by omega
        _ = P * (qa + 1) := by ring
        _ ≤ P * qb := Nat.mul_le_mul_left P h
        _ ≤ P * qb + rb := Nat.le_add_right _ _
    simp only [natDigits, strLtJs]
    by_cases h1 : (digitChar (a / 10 ^ w)).toNat < (digitChar (b / 10 ^ w)).toNat
    · rw [if_pos h1]
      have hq : a / 10 ^ w < b / 10 ^ w := (digitChar_lt_iff _ hqa _ hqb).mp h1
      simp only [true_iff]
      have := key (10 ^ w) (a / 10 ^ w) (a % 10 ^ w) (b / 10 ^ w) (b % 10 ^ w) hP hra hq
      omega
    · rw [if_neg h1]
      by_cases h2 : digitChar (a / 10 ^ w) = digitChar (b / 10 ^ w)
      · rw [if_pos h2]
        have hq : a / 10 ^ w = b / 10 ^ w := (digitChar_eq_iff _ hqa _ hqb).mp h2
        rw [ih (a % 10 ^ w) (b % 10 ^ w) hra hrb]
        rw [hq] at hda
        generalize hX : 10 ^ w * (b / 10 ^ w) = X at hda hdb
        omega
      · rw [if_neg h2]
        have hq : b / 10 ^ w < a / 10 ^ w := by
          have hne : ¬(a / 10 ^ w = b / 10 ^ w) := fun h => h2 ((digitChar_eq_iff _ hqa _ hqb).mpr h)
          have hnl : ¬(a / 10 ^ w < b / 10 ^ w) := fun h => h1 ((digitChar_lt_iff _ hqa _ hqb).mpr h)
          omega
        have := key (10 ^ w) (b / 10 ^ w) (b % 10 ^ w) (a / 10 ^ w) (a % 10 ^ w) hP hrb hq
        constructor
        · intro h; cases h
        · intro h; omega

lemma strLt_irrefl : ∀ l : List Char, strLtJs l l = false := by
  intro l
  induction l with
  | nil => rfl
  | cons a as ih =>
    simp only [strLtJs]
    rw [if_neg (by omega)]
    simpa using ih

lemma natDigits_eq_iff {w a b : Nat} (ha : a < 10 ^ w) (hb : b < 10 ^ w) :
    (natDigits w a = natDigits w b) ↔ a = b := by
  constructor
  · intro h
    by_contra hne
    rcases Nat.lt_or_ge a b with h1 | h1
    · have h2 := (strLt_natDigits w a b ha hb).mpr h1
      rw [h, strLt_irrefl] at h2
      cases h2
    · have h3 : b < a := by omega
      have h2 := (strLt_natDigits w b a hb ha).mpr h3
      rw [← h, strLt_irrefl] at h2
      cases h2
  · intro h; rw [h]

lemma strLt_append : ∀ xs xs' : List Char, xs.length = xs'.length → ∀ ys ys' : List Char,
    (strLtJs (xs ++ ys) (xs' ++ ys') = true ↔
      (strLtJs xs xs' = true ∨ (xs = xs' ∧ strLtJs ys ys' = true))) := by
  intro xs
  induction xs with
  | nil =>
    intro xs' hlen ys ys'
    cases xs' with
    | nil => simp [strLtJs]
    | cons a t => simp at hlen
  | cons x t ih =>
    intro xs' hlen ys ys'
    cases xs' with
    | nil => simp at hlen
    | cons x' t' =>
      simp only [List.cons_append, strLtJs]
      by_cases h1 : x.toNat < x'.toNat
      · rw [if_pos h1, if_pos h1]
        simp
      · rw [if_neg h1, if_neg h1]
        by_cases h2 : x = x'
        · subst h2
          rw [if_pos rfl, if_pos rfl]
          simp only [List.append_eq]
          rw [ih t' (by simpa using hlen) ys ys']
          simp
        · rw [if_neg h2, if_neg h2]
          simp [h2]

lemma strLt_dash_cons (u v : List Char) :
    strLtJs ('-' :: u) ('-' :: v) = strLtJs u v := by
  simp only [strLtJs]
  rw [if_neg (by omega)]
  simp

lemma strLt_fmtDate {t1 t2 : YMD} (h1 : validYMD t1 = true) (h2 : validYMD t2 = true)
    (hy1 : t1.year < 10000) (hy2 : t2.year < 10000) :
    (strLtJs (fmtDate t1) (fmtDate t2) = true ↔ ymdLt t1 t2) := by
  obtain ⟨y1, m1, d1⟩ := t1
  obtain ⟨y2, m2, d2⟩ := t2
  simp only [validYMD, Bool.and_eq_true, decide_eq_true_eq] at h1 h2
  obtain ⟨⟨⟨hm1a, hm1b⟩, hd1a⟩, hd1b⟩ := h1
  obtain ⟨⟨⟨hm2a, hm2b⟩, hd2a⟩, hd2b⟩ := h2
  simp only at hy1 hy2
  have hdim1 := daysInMonth_le_31 y1 m1
  have hdim2 := daysInMonth_le_31 y2 m2
  have hy1p : y1 < 10 ^ 4 := by norm_num; omega
  have hy2p : y2 < 10 ^ 4 := by norm_num; omega
  have hm1p : m1 < 10 ^ 2 := by norm_num; omega
  have hm2p : m2 < 10 ^ 2 := by norm_num; omega
  have hd1p : d1 < 10 ^ 2 := by norm_num; omega
  have hd2p : d2 < 10 ^ 2 := by norm_num; omega
  simp only [fmtDate, ymdLt]
  rw [strLt_append _ _ (by rw [natDigits_length, natDigits_length]) _ _]
  rw [strLt_dash_cons]
  rw [strLt_append _ _ (by rw [natDigits_length, natDigits_length]) _ _]
  rw [strLt_dash_cons]
  rw [strLt_natDigits 4 y1 y2 hy1p hy2p]
  rw [strLt_natDigits 2 m1 m2 hm1p hm2p]
  rw [strLt_natDigits 2 d1 d2 hd1p hd2p]
  rw [natDigits_eq_iff hy1p hy2p, natDigits_eq_iff hm1p hm2p]

lemma strLt_fmtDate_dayNumber {t1 t2 : YMD} (h1 : validYMD t1 = true)
    (h2 : validYMD t2 = true) (hy1 : t1.year < 10000) (hy2 : t2.year < 10000) :
    (strLtJs (fmtDate t1) (fmtDate t2) = true ↔ dayNumber t1 < dayNumber t2) :=
  (strLt_fmtDate h1 h2 hy1 hy2).trans (dayNumber_lt_iff h1 h2).symm

lemma parseDate_fmtDate {t : YMD} (hv : validYMD t = true) (hy : t.year < 10000) :
    parseDate (fmtDate t) = some t := by
  obtain ⟨y, m, d⟩ := t
  simp only [validYMD, Bool.and_eq_true, decide_eq_true_eq] at hv
  obtain ⟨⟨⟨hma, hmb⟩, hda⟩, hdb⟩ := hv
  simp only at hy
  have hdim := daysInMonth_le_31 y m
  simp only [fmtDate, natDigits, pow_succ, pow_zero, one_mul, Nat.div_one, Nat.mod_one]
  simp only [List.cons_append, List.nil_append]
  have e1 : y / (10 * 10 * 10) < 10 := by omega
  have e2 : y % (10 * 10 * 10) / (10 * 10) < 10 := by omega
  have e3 : y % (10 * 10 * 10) % (10 * 10) / 10 < 10 := by omega
  have e4 : y % (10 * 10 * 10) % (10 * 10) % 10 < 10 := by omega
  have e5 : m / 10 < 10 := by omega
  have e6 : m % 10 < 10 := by omega
  have e7 : d / 10 < 10 := by omega
  have e8 : d % 10 < 10 := by omega
  simp only [parseDate, isDigitCh_digitChar _ e1, isDigitCh_digitChar _ e2,
    isDigitCh_digitChar _ e3, isDigitCh_digitChar _ e4, isDigitCh_digitChar _ e5,
    isDigitCh_digitChar _ e6, isDigitCh_digitChar _ e7, isDigitCh_digitChar _ e8,
    digitVal_digitChar _ e1, digitVal_digitChar _ e2, digitVal_digitChar _ e3,
    digitVal_digitChar _ e4, digitVal_digitChar _ e5, digitVal_digitChar _ e6,
    digitVal_digitChar _ e7, digitVal_digitChar _ e8]
  have hy' : y / (10 * 10 * 10) * 1000 + y % (10 * 10 * 10) / (10 * 10) * 100 +
      y % (10 * 10 * 10) % (10 * 10) / 10 * 10 + y % (10 * 10 * 10) % (10 * 10) % 10 = y := by
    omega
  have hm' : m / 10 * 10 + m % 10 = m := by omega
  have hd' : d / 10 * 10 + d % 10 = d := by omega
  rw [hy', hm', hd']
  have hd31 : d ≤ 31 := by omega
  simp [normalizeYMD, hma, hmb, hda, hdb, hd31]

lemma jsNatStr_eq {n : Nat} (h1 : 1000 ≤ n) (h2 : n < 10000) :
    jsNatStr n = natDigits 4 n := by
  unfold jsNatStr
  rw [if_neg (by omega), if_neg (by omega), if_neg (by omega), if_pos h2]

lemma pad2_eq {n : Nat} (h : n < 100) : pad2 n = natDigits 2 n := by
  unfold pad2 jsNatStr
  by_cases h1 : n < 10
  · rw [if_pos h1]
    simp only [natDigits, pow_one, pow_zero, Nat.div_one, Nat.mod_one]
    have h2 : n / 10 = 0 := by omega
    have h3 : n % 10 = n := by omega
    rw [h2, h3]
    rfl
  · rw [if_neg h1, if_neg h1, if_pos h]

lemma jsDateYmdString_eq {t : YMD} (hv : validYMD t = true) (hy1 : 1000 ≤ t.year)
    (hy2 : t.year < 10000) : jsDateYmdString (some t) = fmtDate t := by
  obtain ⟨y, m, d⟩ := t
  simp only [validYMD, Bool.and_eq_true, decide_eq_true_eq] at hv
  obtain ⟨⟨⟨hma, hmb⟩, hda⟩, hdb⟩ := hv
  simp only at hy1 hy2
  have hdim := daysInMonth_le_31 y m
  simp only [jsDateYmdString, fmtDate]
  rw [jsNatStr_eq hy1 hy2, pad2_eq (by omega), pad2_eq (by omega)]

lemma stepName_nameErr (b : Booking) (s : SubmitState) :
    (stepName b s).nameErr = if jsTrim b.name = [] then some msgNameRequired
      else s.nameErr := by
  unfold stepName; split <;> rfl

lemma stepEmail_emailErr (b : Booking) (s : SubmitState) :
    (stepEmail b s).emailErr = if jsTrim b.email = [] then some msgEmailRequired
      else if validateEmail b.email = false then some msgEmailInvalid
      else s.emailErr := by
  unfold stepEmail; split
  · rfl
  · split <;> rfl

lemma stepCountry_phoneErr (b : Booking) (s : SubmitState) :
    (stepCountry b s).phoneErr = if jsTrim b.countryCode = [] then some msgCountryCode
      else s.phoneErr := by
  unfold stepCountry; split <;> rfl

lemma stepPhone_phoneErr (b : Booking) (s : SubmitState) :
    (stepPhone b s).phoneErr = if jsTrim b.phone = [] then some msgPhoneRequired
      else if validatePhone b.phone = false then some msgPhoneInvalid
      else s.phoneErr := by
  unfold stepPhone; split
  · rfl
  · split <;> rfl

lemma stepRoomType_roomTypeErr (b : Booking) (s : SubmitState) :
    (stepRoomType b s).roomTypeErr = if b.roomType = [] then some msgRoomType
      else s.roomTypeErr := by
  unfold stepRoomType; split <;> rfl

lemma stepCheckinRequired_checkinErr (b : Booking) (s : SubmitState) :
    (stepCheckinRequired b s).checkinErr = if b.checkin = [] then some msgCheckinRequired
      else s.checkinErr := by
  unfold stepCheckinRequired; split <;> rfl

lemma stepCheckoutRequired_checkoutErr (b : Booking) (s : SubmitState) :
    (stepCheckoutRequired b s).checkoutErr = if b.checkout = [] then some msgCheckoutRequired
      else s.checkoutErr := by
  unfold stepCheckoutRequired; split <;> rfl

lemma stepGuests_guestsErr (b : Booking) (s : SubmitState) :
    (stepGuests b s).guestsErr = if b.guests = [] then some msgGuests
      else s.guestsErr := by
  unfold stepGuests; split <;> rfl

lemma stepDates_checkinErr (today : Nat) (b : Booking) (s : SubmitState) :
    (stepDates today b s).checkinErr =
      if (b.checkin ≠ [] ∧ b.checkout ≠ []) ∧
          jsDateLtToday (parseDate b.checkin) today = true then some msgCheckinPast
      else s.checkinErr := by
  by_cases h1 : b.checkin ≠ [] ∧ b.checkout ≠ [] <;>
    by_cases h2 : jsDateLeDate (parseDate b.checkout) (parseDate b.checkin) = true <;>
    by_cases h3 : jsDateLtToday (parseDate b.checkin) today = true <;>
    simp [stepDates, h1, h2, h3]

lemma stepDates_checkoutErr (today : Nat) (b : Booking) (s : SubmitState) :
    (stepDates today b s).checkoutErr =
      if (b.checkin ≠ [] ∧ b.checkout ≠ []) ∧
          jsDateLeDate (parseDate b.checkout) (parseDate b.checkin) = true then
        some msgCheckoutAfter
      else s.checkoutErr := by
  by_cases h1 : b.checkin ≠ [] ∧ b.checkout ≠ [] <;>
    by_cases h2 : jsDateLeDate (parseDate b.checkout) (parseDate b.checkin) = true <;>
    by_cases h3 : jsDateLtToday (parseDate b.checkin) today = true <;>
    simp [stepDates, h1, h2, h3]

lemma stepName_pres (b : Booking) (s : SubmitState) :
    (stepName b s).emailErr = s.emailErr ∧ (stepName b s).phoneErr = s.phoneErr ∧
    (stepName b s).roomTypeErr = s.roomTypeErr ∧ (stepName b s).checkinErr = s.checkinErr ∧
    (stepName b s).checkoutErr = s.checkoutErr ∧ (stepName b s).guestsErr = s.guestsErr := by
  unfold stepName; split <;> exact ⟨rfl, rfl, rfl, rfl, rfl, rfl⟩

lemma stepEmail_pres (b : Booking) (s : SubmitState) :
    (stepEmail b s).nameErr = s.nameErr ∧ (stepEmail b s).phoneErr = s.phoneErr ∧
    (stepEmail b s).roomTypeErr = s.roomTypeErr ∧ (stepEmail b s).checkinErr = s.checkinErr ∧
    (stepEmail b s).checkoutErr = s.checkoutErr ∧ (stepEmail b s).guestsErr = s.guestsErr := by
  unfold stepEmail
  split
  · exact ⟨rfl, rfl, rfl, rfl, rfl, rfl⟩
  · split <;> exact ⟨rfl, rfl, rfl, rfl, rfl, rfl⟩

lemma stepCountry_pres (b : Booking) (s : SubmitState) :
    (stepCountry b s).nameErr = s.nameErr ∧ (stepCountry b s).emailErr = s.emailErr ∧
    (stepCountry b s).roomTypeErr = s.roomTypeErr ∧
    (stepCountry b s).checkinErr = s.checkinErr ∧
    (stepCountry b s).checkoutErr = s.checkoutErr ∧
    (stepCountry b s).guestsErr = s.guestsErr := by
  unfold stepCountry; split <;> exact ⟨rfl, rfl, rfl, rfl, rfl, rfl⟩

lemma stepPhone_pres (b : Booking) (s : SubmitState) :
    (stepPhone b s).nameErr = s.nameErr ∧ (stepPhone b s).emailErr = s.emailErr ∧
    (stepPhone b s).roomTypeErr = s.roomTypeErr ∧ (stepPhone b s).checkinErr = s.checkinErr ∧
    (stepPhone b s).checkoutErr = s.checkoutErr ∧ (stepPhone b s).guestsErr = s.guestsErr := by
  unfold stepPhone
  split
  · exact ⟨rfl, rfl, rfl, rfl, rfl, rfl⟩
  · split <;> exact ⟨rfl, rfl, rfl, rfl, rfl, rfl⟩

lemma stepRoomType_pres (b : Booking) (s : SubmitState) :
    (stepRoomType b s).nameErr = s.nameErr ∧ (stepRoomType b s).emailErr = s.emailErr ∧
    (stepRoomType b s).phoneErr = s.phoneErr ∧ (stepRoomType b s).checkinErr = s.checkinErr ∧
    (stepRoomType b s).checkoutErr = s.checkoutErr ∧
    (stepRoomType b s).guestsErr = s.guestsErr := by
  unfold stepRoomType; split <;> exact ⟨rfl, rfl, rfl, rfl, rfl, rfl⟩

lemma stepCheckinRequired_pres (b : Booking) (s : SubmitState) :
    (stepCheckinRequired b s).nameErr = s.nameErr ∧
    (stepCheckinRequired b s).emailErr = s.emailErr ∧
    (stepCheckinRequired b s).phoneErr = s.phoneErr ∧
    (stepCheckinRequired b s).roomTypeErr = s.roomTypeErr ∧
    (stepCheckinRequired b s).checkoutErr = s.checkoutErr ∧
    (stepCheckinRequired b s).guestsErr = s.guestsErr := by
  unfold stepCheckinRequired; split <;> exact ⟨rfl, rfl, rfl, rfl, rfl, rfl⟩

lemma stepCheckoutRequired_pres (b : Booking) (s : SubmitState) :
    (stepCheckoutRequired b s).nameErr = s.nameErr ∧
    (stepCheckoutRequired b s).emailErr = s.emailErr ∧
    (stepCheckoutRequired b s).phoneErr = s.phoneErr ∧
    (stepCheckoutRequired b s).roomTypeErr = s.roomTypeErr ∧
    (stepCheckoutRequired b s).checkinErr = s.checkinErr ∧
    (stepCheckoutRequired b s).guestsErr = s.guestsErr := by
  unfold stepCheckoutRequired; split <;> exact ⟨rfl, rfl, rfl, rfl, rfl, rfl⟩

lemma stepDates_pres (today : Nat) (b : Booking) (s : SubmitState) :
    (stepDates today b s).nameErr = s.nameErr ∧ (stepDates today b s).emailErr = s.emailErr ∧
    (stepDates today b s).phoneErr = s.phoneErr ∧
    (stepDates today b s).roomTypeErr = s.roomTypeErr ∧
    (stepDates today b s).guestsErr = s.guestsErr := by
  by_cases h1 : b.checkin ≠ [] ∧ b.checkout ≠ [] <;>
    by_cases h2 : jsDateLeDate (parseDate b.checkout) (parseDate b.checkin) = true <;>
    by_cases h3 : jsDateLtToday (parseDate b.checkin) today = true <;>
    simp [stepDates, h1, h2, h3]

lemma stepGuests_pres (b : Booking) (s : SubmitState) :
    (stepGuests b s).nameErr = s.nameErr ∧ (stepGuests b s).emailErr = s.emailErr ∧
    (stepGuests b s).phoneErr = s.phoneErr ∧ (stepGuests b s).roomTypeErr = s.roomTypeErr ∧
    (stepGuests b s).checkinErr = s.checkinErr ∧
    (stepGuests b s).checkoutErr = s.checkoutErr := by
  unfold stepGuests; split <;> exact ⟨rfl, rfl, rfl, rfl, rfl, rfl⟩

lemma bookingValidate_nameErr (today : Nat) (b : Booking) :
    (bookingValidate today b).nameErr = nameRule b.name := by
  unfold bookingValidate
  rw [(stepGuests_pres _ _).1, (stepDates_pres _ _ _).1, (stepCheckoutRequired_pres _ _).1,
    (stepCheckinRequired_pres _ _).1, (stepRoomType_pres _ _).1, (stepPhone_pres _ _).1,
    (stepCountry_pres _ _).1, (stepEmail_pres _ _).1, stepName_nameErr]
  rfl

lemma bookingValidate_emailErr (today : Nat) (b : Booking) :
    (bookingValidate today b).emailErr = emailRule b.email := by
  unfold bookingValidate
  rw [(stepGuests_pres _ _).2.1, (stepDates_pres _ _ _).2.1,
    (stepCheckoutRequired_pres _ _).2.1, (stepCheckinRequired_pres _ _).2.1,
    (stepRoomType_pres _ _).2.1, (stepPhone_pres _ _).2.1, (stepCountry_pres _ _).2.1,
    stepEmail_emailErr, (stepName_pres _ _).1]
  rfl

lemma bookingValidate_phoneErr (today : Nat) (b : Booking) :
    (bookingValidate today b).phoneErr = phoneFieldRule b.countryCode b.phone := by
  unfold bookingValidate
  rw [(stepGuests_pres _ _).2.2.1, (stepDates_pres _ _ _).2.2.1,
    (stepCheckoutRequired_pres _ _).2.2.1, (stepCheckinRequired_pres _ _).2.2.1,
    (stepRoomType_pres _ _).2.2.1, stepPhone_phoneErr, stepCountry_phoneErr,
    (stepEmail_pres _ _).2.1, (stepName_pres _ _).2.1]
  unfold phoneFieldRule
  split
  · rfl
  · split
    · rfl
    · rfl

lemma bookingValidate_roomTypeErr (today : Nat) (b : Booking) :
    (bookingValidate today b).roomTypeErr = roomTypeRule b.roomType := by
  unfold bookingValidate
  rw [(stepGuests_pres _ _).2.2.2.1, (stepDates_pres _ _ _).2.2.2.1,
    (stepCheckoutRequired_pres _ _).2.2.2.1, (stepCheckinRequired_pres _ _).2.2.2.1,
    stepRoomType_roomTypeErr, (stepPhone_pres _ _).2.2.1, (stepCountry_pres _ _).2.2.1,
    (stepEmail_pres _ _).2.2.1, (stepName_pres _ _).2.2.1]
  rfl

lemma bookingValidate_checkinErr (today : Nat) (b : Booking) :
    (bookingValidate today b).checkinErr = checkinRule today b.checkin b.checkout := by
  unfold bookingValidate
  rw [(stepGuests_pres _ _).2.2.2.2.1, stepDates_checkinErr,
    (stepCheckoutRequired_pres _ _).2.2.2.2.1, stepCheckinRequired_checkinErr,
    (stepRoomType_pres _ _).2.2.2.1, (stepPhone_pres _ _).2.2.2.1,
    (stepCountry_pres _ _).2.2.2.1, (stepEmail_pres _ _).2.2.2.1,
    (stepName_pres _ _).2.2.2.1]
  unfold checkinRule
  by_cases h1 : b.checkin = []
  · have h2 : ¬((b.checkin ≠ [] ∧ b.checkout ≠ []) ∧
        jsDateLtToday (parseDate b.checkin) today = true) := by
      intro h; exact h.1.1 h1
    rw [if_neg h2, if_pos h1, if_pos h1]
  · rw [if_neg h1]
    by_cases h3 : b.checkout ≠ [] ∧ jsDateLtToday (parseDate b.checkin) today = true
    · rw [if_pos ⟨⟨h1, h3.1⟩, h3.2⟩, if_pos h3, if_neg h1]
    · have h4 : ¬((b.checkin ≠ [] ∧ b.checkout ≠ []) ∧
          jsDateLtToday (parseDate b.checkin) today = true) := by
        intro h; exact h3 ⟨h.1.2, h.2⟩
      rw [if_neg h4, if_neg h3, if_neg h1]
      rfl

lemma bookingValidate_checkoutErr (today : Nat) (b : Booking) :
    (bookingValidate today b).checkoutErr = checkoutRule b.checkin b.checkout := by
  unfold bookingValidate
  rw [(stepGuests_pres _ _).2.2.2.2.2, stepDates_checkoutErr,
    stepCheckoutRequired_checkoutErr, (stepCheckinRequired_pres _ _).2.2.2.2.1,
    (stepRoomType_pres _ _).2.2.2.2.1, (stepPhone_pres _ _).2.2.2.2.1,
    (stepCountry_pres _ _).2.2.2.2.1, (stepEmail_pres _ _).2.2.2.2.1,
    (stepName_pres _ _).2.2.2.2.1]
  unfold checkoutRule
  by_cases h1 : b.checkout = []
  · have h2 : ¬((b.checkin ≠ [] ∧ b.checkout ≠ []) ∧
        jsDateLeDate (parseDate b.checkout) (parseDate b.checkin) = true) := by
      intro h; exact h.1.2 h1
    rw [if_neg h2, if_pos h1, if_pos h1]
  · rw [if_neg h1]
    by_cases h3 : b.checkin ≠ [] ∧ jsDateLeDate (parseDate b.checkout) (parseDate b.checkin) = true
    · rw [if_pos ⟨⟨h3.1, h1⟩, h3.2⟩, if_pos h3, if_neg h1]
    · have h4 : ¬((b.checkin ≠ [] ∧ b.checkout ≠ []) ∧
          jsDateLeDate (parseDate b.checkout) (parseDate b.checkin) = true) := by
        intro h; exact h3 ⟨h.1.1, h.2⟩
      rw [if_neg h4, if_neg h3, if_neg h1]
      rfl

lemma bookingValidate_guestsErr (today : Nat) (b : Booking) :
    (bookingValidate today b).guestsErr = guestsRule b.guests := by
  unfold bookingValidate
  rw [stepGuests_guestsErr, (stepDates_pres _ _ _).2.2.2.2,
    (stepCheckoutRequired_pres _ _).2.2.2.2.2, (stepCheckinRequired_pres _ _).2.2.2.2.2,
    (stepRoomType_pres _ _).2.2.2.2.2, (stepPhone_pres _ _).2.2.2.2.2,
    (stepCountry_pres _ _).2.2.2.2.2, (stepEmail_pres _ _).2.2.2.2.2,
    (stepName_pres _ _).2.2.2.2.2]
  rfl

lemma stepName_isValid (b : Booking) (s : SubmitState) :
    (stepName b s).isValid = if jsTrim b.name = [] then false else s.isValid := by
  unfold stepName; split <;> rfl

lemma stepEmail_isValid (b : Booking) (s : SubmitState) :
    (stepEmail b s).isValid = if jsTrim b.email = [] then false
      else if validateEmail b.email = false then false else s.isValid := by
  unfold stepEmail; split
  · rfl
  · split <;> rfl

lemma stepCountry_isValid (b : Booking) (s : SubmitState) :
    (stepCountry b s).isValid = if jsTrim b.countryCode = [] then false
      else s.isValid := by
  unfold stepCountry; split <;> rfl

lemma stepPhone_isValid (b : Booking) (s : SubmitState) :
    (stepPhone b s).isValid = if jsTrim b.phone = [] then false
      else if validatePhone b.phone = false then false else s.isValid := by
  unfold stepPhone; split
  · rfl
  · split <;> rfl

lemma stepRoomType_isValid (b : Booking) (s : SubmitState) :
    (stepRoomType b s).isValid = if b.roomType = [] then false else s.isValid := by
  unfold stepRoomType; split <;> rfl

lemma stepCheckinRequired_isValid (b : Booking) (s : SubmitState) :
    (stepCheckinRequired b s).isValid = if b.checkin = [] then false else s.isValid := by
  unfold stepCheckinRequired; split <;> rfl

lemma stepCheckoutRequired_isValid (b : Booking) (s : SubmitState) :
    (stepCheckoutRequired b s).isValid = if b.checkout = [] then false else s.isValid := by
  unfold stepCheckoutRequired; split <;> rfl

lemma stepDates_isValid (today : Nat) (b : Booking) (s : SubmitState) :
    (stepDates today b s).isValid =
      if (b.checkin ≠ [] ∧ b.checkout ≠ []) ∧
          jsDateLeDate (parseDate b.checkout) (parseDate b.checkin) = true then false
      else if (b.checkin ≠ [] ∧ b.checkout ≠ []) ∧
          jsDateLtToday (parseDate b.checkin) today = true then false
      else s.isValid := by
  by_cases h1 : b.checkin ≠ [] ∧ b.checkout ≠ [] <;>
    by_cases h2 : jsDateLeDate (parseDate b.checkout) (parseDate b.checkin) = true <;>
    by_cases h3 : jsDateLtToday (parseDate b.checkin) today = true <;>
    simp [stepDates, h1, h2, h3]

lemma stepGuests_isValid (b : Booking) (s : SubmitState) :
    (stepGuests b s).isValid = if b.guests = [] then false else s.isValid := by
  unfold stepGuests; split <;> rfl

lemma if_false_eq_true_iff (c : Prop) [Decidable c] (x : Bool) :
    ((if c then false else x) = true) ↔ (¬c ∧ x = true) := by
  split <;> simp [*]

lemma nameRule_eq_none (v : List Char) :
    nameRule v = none ↔ ¬(jsTrim v = []) := by
  unfold nameRule; split <;> simp [*]

lemma emailRule_eq_none (v : List Char) :
    emailRule v = none ↔ ¬(jsTrim v = []) ∧ ¬(validateEmail v = false) := by
  unfold emailRule; split
  · simp [*]
  · split <;> simp [*]

lemma phoneFieldRule_eq_none (cc v : List Char) :
    phoneFieldRule cc v = none ↔
      ¬(jsTrim v = []) ∧ ¬(validatePhone v = false) ∧ ¬(jsTrim cc = []) := by
  unfold phoneFieldRule; split
  · simp [*]
  · split
    · simp [*]
    · split <;> simp [*]

lemma roomTypeRule_eq_none (v : List Char) :
    roomTypeRule v = none ↔ ¬(v = []) := by
  unfold roomTypeRule; split <;> simp [*]

lemma checkinRule_eq_none (today : Nat) (ci co : List Char) :
    checkinRule today ci co = none ↔
      ¬(ci = []) ∧ ¬(co ≠ [] ∧ jsDateLtToday (parseDate ci) today = true) := by
  unfold checkinRule; split
  · simp [*]
  · split <;> simp [*]

lemma checkoutRule_eq_none (ci co : List Char) :
    checkoutRule ci co = none ↔
      ¬(co = []) ∧ ¬(ci ≠ [] ∧ jsDateLeDate (parseDate co) (parseDate ci) = true) := by
  unfold checkoutRule; split
  · simp [*]
  · split <;> simp [*]

lemma guestsRule_eq_none (v : List Char) :
    guestsRule v = none ↔ ¬(v = []) := by
  unfold guestsRule; split <;> simp [*]

lemma bookingValidate_isValid_iff (today : Nat) (b : Booking) :
    (bookingValidate today b).isValid = true ↔
      (nameRule b.name = none ∧ emailRule b.email = none ∧
        phoneFieldRule b.countryCode b.phone = none ∧ roomTypeRule b.roomType = none ∧
        checkinRule today b.checkin b.checkout = none ∧
        checkoutRule b.checkin b.checkout = none ∧ guestsRule b.guests = none) := by
  unfold bookingValidate
  rw [stepGuests_isValid, stepDates_isValid, stepCheckoutRequired_isValid,
    stepCheckinRequired_isValid, stepRoomType_isValid, stepPhone_isValid,
    stepCountry_isValid, stepEmail_isValid, stepName_isValid]
  rw [nameRule_eq_none, emailRule_eq_none, phoneFieldRule_eq_none, roomTypeRule_eq_none,
    checkinRule_eq_none, checkoutRule_eq_none, guestsRule_eq_none]
  simp only [if_false_eq_true_iff]
  constructor
  · rintro ⟨hgu, hle, hlt, hco, hci, hroom, hph1, hph2, hcc, he1, he2, hname, -⟩
    refine ⟨hname, ⟨he1, he2⟩, ⟨hph1, hph2, hcc⟩, hroom, ⟨hci, ?_⟩, ⟨hco, ?_⟩, hgu⟩
    · intro h; exact hlt ⟨⟨hci, h.1⟩, h.2⟩
    · intro h; exact hle ⟨⟨h.1, hco⟩, h.2⟩
  · rintro ⟨hname, ⟨he1, he2⟩, ⟨hph1, hph2, hcc⟩, hroom, ⟨hci, hcid⟩, ⟨hco, hcod⟩, hgu⟩
    refine ⟨hgu, ?_, ?_, hco, hci, hroom, hph1, hph2, hcc, he1, he2, hname, rfl⟩
    · intro h; exact hcod ⟨h.1.1, h.2⟩
    · intro h; exact hcid ⟨h.1.2, h.2⟩

lemma bookingSubmit_state (today : Nat) (b : Booking) :
    (bookingSubmit today b).state = bookingValidate today b := by
  simp only [bookingSubmit]; split <;> rfl

lemma bookingSubmit_successVisible (today : Nat) (b : Booking) :
    (bookingSubmit today b).successVisible = (bookingValidate today b).isValid := by
  simp only [bookingSubmit]
  split
  · rename_i h; exact h.symm
  · rename_i h
    rw [Bool.not_eq_true] at h
    exact h.symm

lemma bookingSubmit_of_invalid {today : Nat} {b : Booking}
    (h : (bookingValidate today b).isValid = false) :
    bookingSubmit today b = ⟨bookingValidate today b, false, b, none⟩ := by
  simp only [bookingSubmit]
  rw [if_neg (by rw [h]; exact Bool.false_ne_true)]

lemma bookingSubmit_of_valid {today : Nat} {b : Booking}
    (h : (bookingValidate today b).isValid = true) :
    bookingSubmit today b = ⟨bookingValidate today b, true, emptyBooking, some 5000⟩ := by
  simp only [bookingSubmit]
  rw [if_pos h]

lemma fmtDate_ne_nil (t : YMD) : fmtDate t ≠ [] := by
  unfold fmtDate
  cases h : natDigits 4 t.year with
  | nil =>
    have := natDigits_length 4 t.year
    rw [h] at this
    cases this
  | cons a l => simp

lemma nextDay_year_bounds (t : YMD) :
    t.year ≤ (nextDay t).year ∧ (nextDay t).year ≤ t.year + 1 := by
  unfold nextDay
  split
  · exact ⟨le_rfl, Nat.le_succ _⟩
  · split
    · exact ⟨le_rfl, Nat.le_succ _⟩
    · exact ⟨Nat.le_succ _, le_rfl⟩

/-- Claim C1 counterexample: the string "@a.b" satisfies the spec's prose
pass-characterization (no whitespace before "@", none between "@" and ".",
non-empty suffix after the last "."), yet `validateEmail` rejects it, so
the prose characterization is not equivalent to the regex. -/
theorem validateEmail_prose_counterexample :
    specEmailPass ("@a.b".toList) = true ∧ validateEmail ("@a.b".toList) = false := by
  decide

/-- Claim C1 (amended): `validateEmail` returns true exactly when the
lowercased input matches `^[^\s@]+@[^\s@]+\.[^\s@]+$`; the spec's prose
pass-characterization is strictly weaker than this regex. -/
theorem validateEmail_iff_regex (s : List Char) :
    validateEmail s = true ↔ MatchesEmailRe (s.map Char.toLower) :=
  emailMatch_iff (s.map Char.toLower)

/-- Claim C2: `validatePhone` accepts exactly the strings of exactly 10
decimal digit characters; in particular "12345" is invalid and
"1234567890" is valid. -/
theorem validatePhone_characterization :
    (∀ s : List Char, validatePhone s = true ↔
      (s.length = 10 ∧ ∀ c ∈ s, isDigitCh c = true)) ∧
    validatePhone ("12345".toList) = false ∧
    validatePhone ("1234567890".toList) = true := by
  refine ⟨?_, by decide, by decide⟩
  have key : ∀ (l : List Char) (n : Nat), phoneMatch n l = true ↔
      (l.length = n ∧ ∀ c ∈ l, isDigitCh c = true) := by
    intro l
    induction l with
    | nil => intro n; cases n <;> simp [phoneMatch]
    | cons c t ih =>
      intro n
      cases n with
      | zero => simp [phoneMatch]
      | succ n =>
        rw [show phoneMatch (n + 1) (c :: t) = (isDigitCh c && phoneMatch n t) from rfl,
          Bool.and_eq_true, ih n]
        constructor
        · rintro ⟨h1, h2, h3⟩
          refine ⟨by simp [h2], ?_⟩
          intro x hx
          rcases List.mem_cons.mp hx with rfl | hx
          · exact h1
          · exact h3 x hx
        · rintro ⟨h1, h2⟩
          refine ⟨h2 c (List.mem_cons_self c t), by simpa using h1, ?_⟩
          intro x hx
          exact h2 x (List.mem_cons_of_mem _ hx)
  intro s
  exact key s 10

/-- Claim C3: booking validation does not short-circuit: each error element
ends up showing exactly what its own field rule dictates, independently of
the other fields, and the success banner shows exactly when every rule
passes. -/
theorem bookingSubmit_no_short_circuit (today : Nat) (b : Booking) :
    (bookingSubmit today b).state.nameErr = nameRule b.name ∧
    (bookingSubmit today b).state.emailErr = emailRule b.email ∧
    (bookingSubmit today b).state.phoneErr = phoneFieldRule b.countryCode b.phone ∧
    (bookingSubmit today b).state.roomTypeErr = roomTypeRule b.roomType ∧
    (bookingSubmit today b).state.checkinErr = checkinRule today b.checkin b.checkout ∧
    (bookingSubmit today b).state.checkoutErr = checkoutRule b.checkin b.checkout ∧
    (bookingSubmit today b).state.guestsErr = guestsRule b.guests ∧
    ((bookingSubmit today b).successVisible = true ↔
      (nameRule b.name = none ∧ emailRule b.email = none ∧
        phoneFieldRule b.countryCode b.phone = none ∧ roomTypeRule b.roomType = none ∧
        checkinRule today b.checkin b.checkout = none ∧
        checkoutRule b.checkin b.checkout = none ∧ guestsRule b.guests = none)) := by
  rw [bookingSubmit_state, bookingSubmit_successVisible]
  exact ⟨bookingValidate_nameErr today b, bookingValidate_emailErr today b,
    bookingValidate_phoneErr today b, bookingValidate_roomTypeErr today b,
    bookingValidate_checkinErr today b, bookingValidate_checkoutErr today b,
    bookingValidate_guestsErr today b, bookingValidate_isValid_iff today b⟩

/-- Claim C4: submitting either form with every field empty shows an error
on every required field and does not show the success message. -/
theorem allEmpty_shows_all_errors (today : Nat) :
    ((bookingSubmit today emptyBooking).state.nameErr = some msgNameRequired ∧
     (bookingSubmit today emptyBooking).state.emailErr = some msgEmailRequired ∧
     (bookingSubmit today emptyBooking).state.phoneErr = some msgPhoneRequired ∧
     (bookingSubmit today emptyBooking).state.roomTypeErr = some msgRoomType ∧
     (bookingSubmit today emptyBooking).state.checkinErr = some msgCheckinRequired ∧
     (bookingSubmit today emptyBooking).state.checkoutErr = some msgCheckoutRequired ∧
     (bookingSubmit today emptyBooking).state.guestsErr = some msgGuests ∧
     (bookingSubmit today emptyBooking).successVisible = false) ∧
    ((contactSubmit emptyContact).state.nameErr = some msgContactNameRequired ∧
     (contactSubmit emptyContact).state.emailErr = some msgEmailRequired ∧
     (contactSubmit emptyContact).state.subjectErr = some msgSubjectRequired ∧
     (contactSubmit emptyContact).state.messageErr = some msgMessageRequired ∧
     (contactSubmit emptyContact).successVisible = false) :=
  ⟨⟨rfl, rfl, rfl, rfl, rfl, rfl, rfl, rfl⟩, rfl, rfl, rfl, rfl, rfl⟩

/-- Claim C5: with both dates present and check-out on or before check-in,
the submit shows the check-out error and the success branch is not taken:
no banner, no reset, no timer. -/
theorem checkout_not_after_checkin_blocks (today : Nat) (b : Booking) (D E : YMD)
    (hci : b.checkin = fmtDate D) (hco : b.checkout = fmtDate E)
    (hvD : validYMD D = true) (hvE : validYMD E = true)
    (hyD : D.year < 10000) (hyE : E.year < 10000)
    (hle : dayNumber E ≤ dayNumber D) :
    (bookingSubmit today b).state.checkoutErr = some msgCheckoutAfter ∧
    (bookingSubmit today b).successVisible = false ∧
    (bookingSubmit today b).fields = b ∧
    (bookingSubmit today b).hideTimerMs = none := by
  have hfD : parseDate b.checkin = some D := by
    rw [hci]; exact parseDate_fmtDate hvD hyD
  have hfE : parseDate b.checkout = some E := by
    rw [hco]; exact parseDate_fmtDate hvE hyE
  have hcoErr : checkoutRule b.checkin b.checkout = some msgCheckoutAfter := by
    unfold checkoutRule
    rw [if_neg (by rw [hco]; exact fmtDate_ne_nil E)]
    rw [if_pos ⟨by rw [hci]; exact fmtDate_ne_nil D,
      by rw [hfE, hfD]; simp [jsDateLeDate, hle]⟩]
  have hinv : (bookingValidate today b).isValid = false := by
    cases hb : (bookingValidate today b).isValid
    · rfl
    · exfalso
      obtain ⟨-, -, -, -, -, h6, -⟩ := (bookingValidate_isValid_iff today b).mp hb
      rw [hcoErr] at h6
      cases h6
  rw [bookingSubmit_of_invalid hinv]
  refine ⟨?_, rfl, rfl, rfl⟩
  show (bookingValidate today b).checkoutErr = some msgCheckoutAfter
  rw [bookingValidate_checkoutErr, hcoErr]

set_option maxRecDepth 8000 in
/-- Witness for C5: equal check-in and check-out dates block the submit. -/
theorem checkout_not_after_checkin_blocks_witness :
    (bookingSubmit 0 wB5).state.checkoutErr = some msgCheckoutAfter ∧
    (bookingSubmit 0 wB5).successVisible = false ∧
    (bookingSubmit 0 wB5).fields = wB5 ∧
    (bookingSubmit 0 wB5).hideTimerMs = none :=
  checkout_not_after_checkin_blocks 0 wB5 ⟨1200, 3, 10⟩ ⟨1200, 3, 10⟩ rfl rfl
    (by decide) (by decide) (by decide) (by decide) (by decide)

/-- Claim C6: with both dates present and valid, the check-in error element
shows the past-date error exactly when the check-in calendar day is before
today's calendar day; a check-in equal to today passes the rule. -/
theorem checkin_past_date_rule (today : Nat) (b : Booking) (D E : YMD)
    (hci : b.checkin = fmtDate D) (hco : b.checkout = fmtDate E)
    (hvD : validYMD D = true) (hvE : validYMD E = true)
    (hyD : D.year < 10000) (hyE : E.year < 10000) :
    (bookingSubmit today b).state.checkinErr =
      (if dayNumber D < today then some msgCheckinPast else none) := by
  rw [bookingSubmit_state, bookingValidate_checkinErr]
  have hfD : parseDate b.checkin = some D := by
    rw [hci]; exact parseDate_fmtDate hvD hyD
  unfold checkinRule
  rw [if_neg (by rw [hci]; exact fmtDate_ne_nil D)]
  by_cases h : dayNumber D < today
  · rw [if_pos ⟨by rw [hco]; exact fmtDate_ne_nil E,
      by rw [hfD]; simp [jsDateLtToday, h]⟩, if_pos h]
  · have hneg : ¬(b.checkout ≠ [] ∧ jsDateLtToday (parseDate b.checkin) today = true) := by
      rintro ⟨-, hl⟩
      rw [hfD] at hl
      simp only [jsDateLtToday, decide_eq_true_eq] at hl
      exact h hl
    rw [if_neg hneg, if_neg h]

set_option maxRecDepth 8000 in
/-- Witness for C6: a check-in equal to today yields no check-in error. -/
theorem checkin_past_date_rule_witness :
    (bookingSubmit (dayNumber ⟨1200, 3, 10⟩) wB6).state.checkinErr = none := by
  rw [checkin_past_date_rule (dayNumber ⟨1200, 3, 10⟩) wB6 ⟨1200, 3, 10⟩ ⟨1200, 3, 11⟩
    rfl rfl (by decide) (by decide) (by decide) (by decide)]
  simp

/-- Claim C7: changing check-in to a date D sets the checkout minimum to the
rendering of the next calendar day D+1 (whose day number is one more than
D's), clears an already-selected checkout exactly when it is earlier than
D+1, and clearing check-in clears the checkout minimum. -/
theorem checkin_change_updates_checkout_min (st : CheckoutCtl) (D E : YMD)
    (hvD : validYMD D = true) (hy1 : 1000 ≤ D.year) (hy2 : D.year ≤ 9998)
    (hvE : validYMD E = true) (hyE : E.year < 10000) :
    (checkinChange (fmtDate D) st).checkoutMin = fmtDate (nextDay D) ∧
    dayNumber (nextDay D) = dayNumber D + 1 ∧
    (st.checkout = [] → (checkinChange (fmtDate D) st).checkout = st.checkout) ∧
    (st.checkout = fmtDate E →
      (checkinChange (fmtDate D) st).checkout =
        (if dayNumber E < dayNumber D + 1 then [] else st.checkout)) ∧
    (checkinChange [] st).checkoutMin = [] ∧
    (checkinChange [] st).checkout = st.checkout := by
  have hndv : validYMD (nextDay D) = true := nextDay_valid hvD
  have hb := nextDay_year_bounds D
  have hnd1 : 1000 ≤ (nextDay D).year := by omega
  have hnd2 : (nextDay D).year < 10000 := by omega
  have hpf : parseDate (fmtDate D) = some D := parseDate_fmtDate hvD (by omega)
  have hmin : jsDateYmdString ((parseDate (fmtDate D)).map nextDay) =
      fmtDate (nextDay D) := by
    rw [hpf]
    show jsDateYmdString (some (nextDay D)) = fmtDate (nextDay D)
    exact jsDateYmdString_eq hndv hnd1 hnd2
  have hresult : checkinChange (fmtDate D) st =
      (if st.checkout ≠ [] ∧ strLtJs st.checkout (fmtDate (nextDay D)) = true
       then ⟨[], fmtDate (nextDay D)⟩ else ⟨st.checkout, fmtDate (nextDay D)⟩) := by
    simp only [checkinChange, hmin]
    rw [if_pos (show fmtDate D ≠ [] from fmtDate_ne_nil D)]
  refine ⟨?_, dayNumber_nextDay hvD, ?_, ?_, ?_, ?_⟩
  · rw [hresult]; split <;> rfl
  · intro h
    rw [hresult, if_neg (fun hc => hc.1 h), h]
  · intro h
    have hlex : strLtJs st.checkout (fmtDate (nextDay D)) = true ↔
        dayNumber E < dayNumber D + 1 := by
      rw [h, strLt_fmtDate_dayNumber hvE hndv hyE hnd2, dayNumber_nextDay hvD]
    rw [hresult]
    by_cases hd : dayNumber E < dayNumber D + 1
    · rw [if_pos ⟨by rw [h]; exact fmtDate_ne_nil E, hlex.mpr hd⟩, if_pos hd]
    · rw [if_neg (fun hc => hd (hlex.mp hc.2)), if_neg hd]
  · simp [checkinChange]
  · simp [checkinChange]

set_option maxRecDepth 8000 in
/-- Witness for C7: check-in 1200-03-10 sets the minimum to 1200-03-11 and
clears a checkout equal to 1200-03-10. -/
theorem checkin_change_updates_checkout_min_witness :
    (checkinChange (fmtDate ⟨1200, 3, 10⟩) ⟨fmtDate ⟨1200, 3, 10⟩, []⟩).checkoutMin =
      fmtDate ⟨1200, 3, 11⟩ ∧
    (checkinChange (fmtDate ⟨1200, 3, 10⟩) ⟨fmtDate ⟨1200, 3, 10⟩, []⟩).checkout = [] := by
  have h := checkin_change_updates_checkout_min ⟨fmtDate ⟨1200, 3, 10⟩, []⟩
    ⟨1200, 3, 10⟩ ⟨1200, 3, 10⟩ (by decide) (by decide) (by decide) (by decide) (by decide)
  refine ⟨?_, ?_⟩
  · rw [h.1]; decide
  · rw [h.2.2.2.1 rfl]; decide

/-- Claim C8: when every rule passes, the submit shows the success banner,
resets every field to empty, schedules the 5000 ms auto-hide timer, and the
banner is hidden once that timer fires. -/
theorem valid_submit_success (today : Nat) (b : Booking)
    (h : nameRule b.name = none ∧ emailRule b.email = none ∧
      phoneFieldRule b.countryCode b.phone = none ∧ roomTypeRule b.roomType = none ∧
      checkinRule today b.checkin b.checkout = none ∧
      checkoutRule b.checkin b.checkout = none ∧ guestsRule b.guests = none) :
    (bookingSubmit today b).successVisible = true ∧
    (bookingSubmit today b).fields = emptyBooking ∧
    (bookingSubmit today b).hideTimerMs = some 5000 ∧
    (fireHideTimer (bookingSubmit today b)).successVisible = false ∧
    (fireHideTimer (bookingSubmit today b)).hideTimerMs = none := by
  have hv : (bookingValidate today b).isValid = true :=
    (bookingValidate_isValid_iff today b).mpr h
  rw [bookingSubmit_of_valid hv]
  exact ⟨rfl, rfl, rfl, rfl, rfl⟩

set_option maxRecDepth 8000 in
/-- Witness for C8: a fully valid booking succeeds and resets. -/
theorem valid_submit_success_witness :
    (bookingSubmit 0 wB8).successVisible = true ∧
    (bookingSubmit 0 wB8).fields = emptyBooking ∧
    (bookingSubmit 0 wB8).hideTimerMs = some 5000 ∧
    (fireHideTimer (bookingSubmit 0 wB8)).successVisible = false ∧
    (fireHideTimer (bookingSubmit 0 wB8)).hideTimerMs = none :=
  valid_submit_success 0 wB8 (by decide)

/-- Claim C9: when the `{inputId}-error` element is absent, `showError` and
`clearError` leave the document unchanged (and in particular raise no
fault): the error is silently not shown. -/
theorem showError_missing_element_noop (doc : List (List Char × DomElem))
    (inputId msg : List Char)
    (h : getById doc (inputId ++ "-error".toList) = none) :
    showError doc inputId msg = doc ∧ clearError doc inputId = doc := by
  unfold showError clearError
  rw [h]
  exact ⟨rfl, rfl⟩

/-- Witness for C9: a document with a field element but no error element is
untouched. -/
theorem showError_missing_element_noop_witness :
    getById wDoc ("name".toList ++ "-error".toList) = none ∧
    showError wDoc ("name".toList) msgNameRequired = wDoc ∧
    clearError wDoc ("name".toList) = wDoc :=
  ⟨by decide,
    (showError_missing_element_noop wDoc ("name".toList) msgNameRequired (by decide)).1,
    (showError_missing_element_noop wDoc ("name".toList) msgNameRequired (by decide)).2⟩

/-- Claim C10: with an empty country code, the country-code message lands on
the phone error element and is overwritten by any phone failure, so the
phone element shows exactly one message. -/
theorem country_code_error_on_phone_element (today : Nat) (b : Booking)
    (h : jsTrim b.countryCode = []) :
    (bookingSubmit today b).state.phoneErr =
      (if jsTrim b.phone = [] then some msgPhoneRequired
       else if validatePhone b.phone = false then some msgPhoneInvalid
       else some msgCountryCode) := by
  rw [bookingSubmit_state, bookingValidate_phoneErr]
  unfold phoneFieldRule
  by_cases h1 : jsTrim b.phone = []
  · rw [if_pos h1, if_pos h1]
  · rw [if_neg h1, if_neg h1]
    by_cases h2 : validatePhone b.phone = false
    · rw [if_pos h2, if_pos h2]
    · rw [if_neg h2, if_neg h2, if_pos h]

set_option maxRecDepth 8000 in
/-- Witness for C10: empty country code with a valid phone shows the
country-code message on the phone element. -/
theorem country_code_error_on_phone_element_witness :
    (bookingSubmit 0 wB10).state.phoneErr = some msgCountryCode := by
  rw [country_code_error_on_phone_element 0 wB10 (by decide)]
  decide
